import Mathlib

/-!
Shallow embedding of `mogdevice.py` (MOGLabs device client).
Byte strings are modelled as `List Char` (each char a byte value); the
response-parsing methods of class `MOGDevice` are modelled as pure
functions of the received byte data, and the byte channel beneath
`recv_raw` as a pending-byte list together with an oracle of chunk sizes.
-/

namespace MOG

/-- Byte strings, modelled as lists of characters. -/
abbrev LC := List Char

/-- Byte-string literal helper. -/
def bs (s : String) : LC := s.data

/-- Python ASCII whitespace, as stripped by `bytes.strip()`. -/
def isPyWS (c : Char) : Bool :=
  c = ' ' || c = '\t' || c = '\n' || c = '\r' || c = '\x0B' || c = '\x0C'

/-- `bytes.lstrip()`. -/
def lstripWS : LC → LC
  | [] => []
  | c :: rest => if isPyWS c then lstripWS rest else c :: rest

/-- `bytes.rstrip()`. -/
def rstripWS (s : LC) : LC := (lstripWS s.reverse).reverse

/-- `bytes.strip()`. -/
def pstrip (s : LC) : LC := rstripWS (lstripWS s)

/-- `bytes.startswith(p)`. -/
def startsWithB : LC → LC → Bool
  | [], _ => true
  | _ :: _, [] => false
  | p :: ps, c :: cs => p = c && startsWithB ps cs

/-- `bytes.endswith(p)`. -/
def endsWithB (p s : LC) : Bool := startsWithB p.reverse s.reverse

/-- `bytes.split(sep)` for a one-byte separator, no maxsplit. -/
def splitCh (sep : Char) : LC → List LC
  | [] => [[]]
  | c :: rest =>
    let r := splitCh sep rest
    if c = sep then [] :: r
    else
      match r with
      | [] => [[c]]
      | h :: t => (c :: h) :: t

/-- Split off the part before the first occurrence of `sep`, if any. -/
def splitOnceCh (sep : Char) : LC → Option (LC × LC)
  | [] => none
  | c :: rest =>
    if c = sep then some ([], rest)
    else
      match splitOnceCh sep rest with
      | none => none
      | some (a, b) => some (c :: a, b)

/-- `bytes.split(sep, maxsplit)` for a one-byte separator. -/
def splitChN (sep : Char) : Nat → LC → List LC
  | 0, s => [s]
  | Nat.succ n, s =>
    match splitOnceCh sep s with
    | none => [s]
    | some (a, b) => a :: splitChN sep n b

/-- Insertion into an ordered mapping (`OrderedDict` / insertion-ordered
`dict`): an existing key is updated in place, a new key appended. -/
def odInsert (k v : LC) (m : List (LC × LC)) : List (LC × LC) :=
  if m.any (fun p => p.1 = k) then
    m.map (fun p => if p.1 = k then (k, v) else p)
  else m ++ [(k, v)]

/-- The exceptions the client can raise:
`runtimeError msg` is `RuntimeError` carrying a byte-string payload
(device error text in `ask`, raw response in `cmd`, error text in
`ask_bin`); the remaining constructors stand for the fixed-message
`RuntimeError`s and for Python-level `TypeError` / `ValueError` /
`struct.error`. -/
inductive PyErr where
  | runtimeError (msg : LC)
  | notADictionary
  | incompatibleFirmware
  | incorrectLength
  | typeError
  | valueError
  | structError
deriving DecidableEq

instance {ε α : Type} [DecidableEq ε] [DecidableEq α] : DecidableEq (Except ε α) := fun
  | Except.ok a, Except.ok b =>
    if h : a = b then isTrue (by rw [h]) else isFalse (by intro hc; cases hc; exact h rfl)
  | Except.error a, Except.error b =>
    if h : a = b then isTrue (by rw [h]) else isFalse (by intro hc; cases hc; exact h rfl)
  | Except.ok _, Except.error _ => isFalse (by intro hc; cases hc)
  | Except.error _, Except.ok _ => isFalse (by intro hc; cases hc)

/-- The CRLF terminator `b"\r\n"`. -/
def CRLFb : LC := ['\r', '\n']

/-- Connection target resolved by `MOGDevice.__init__`. -/
inductive Target where
  | serial (conn : LC)
  | network (conn : LC)
deriving DecidableEq

/-- Whether the serial transport was selected. -/
def Target.isSerial : Target → Bool
  | .serial _ => true
  | .network _ => false

/-- `MOGDevice.__init__` (lines 23-38): address and port resolution.
`addr.startswith("COM") or addr == "USB"` selects serial; a given port
replaces the address by `"COM%d" % port`, then everything after the
first space is dropped.  Otherwise, an address without a colon gets
`":%d"` appended, with port defaulting to 7802. -/
def resolveTarget (addr : LC) (port : Option Int) : Target :=
  if startsWithB (bs "COM") addr || addr = bs "USB" then
    let a1 := match port with
      | some p => bs "COM" ++ (toString p).data
      | none => addr
    let a2 := (splitChN ' ' 1 a1).headD []
    Target.serial a2
  else
    if addr.contains ':' then Target.network addr
    else
      let p : Int := match port with
        | some q => q
        | none => 7802
      Target.network (addr ++ bs ":" ++ (toString p).data)

/-- `MOGDevice.send` (lines 142-148), on the byte level: append CRLF
unless already present.  The result is what is handed to `send_raw`. -/
def send (cmd : LC) : LC :=
  if endsWithB CRLFb cmd then cmd else cmd ++ CRLFb

/-- `MOGDevice.send` on a `str` argument: encode first. -/
def sendStr (cmd : String) : LC := send cmd.data

/-- `MOGDevice.ask` (lines 103-111) as a function of the received data
`raw`: strip, then raise `RuntimeError(resp[4:].strip())` on an
`b"ERR:"` prefix, else return the stripped response. -/
def ask (raw : LC) : Except PyErr LC :=
  let resp := pstrip raw
  if startsWithB (bs "ERR:") resp then
    Except.error (PyErr.runtimeError (pstrip (resp.drop 4)))
  else Except.ok resp

/-- `MOGDevice.cmd` (lines 95-101): `ask`, then require an `b"OK"`
prefix, else `RuntimeError(resp)`. -/
def cmd (raw : LC) : Except PyErr LC :=
  (ask raw).bind fun resp =>
    if startsWithB (bs "OK") resp then Except.ok resp
    else Except.error (PyErr.runtimeError resp)

/-- The `b"OK"`-strip step of `ask_dict` (lines 117-118):
`resp[3:].strip()` when the response starts with `b"OK"`. -/
def stripOKHd (resp : LC) : LC :=
  if startsWithB (bs "OK") resp then pstrip (resp.drop 3) else resp

/-- The entry loop of `ask_dict` (lines 124-126): each entry is split on
`b":"` and must give exactly a name and a value (else the tuple
unpacking raises `ValueError`); pairs go into an `OrderedDict`. -/
def dictEntries : List LC → List (LC × LC) → Except PyErr (List (LC × LC))
  | [], acc => Except.ok acc
  | e :: rest, acc =>
    match splitCh ':' e with
    | [name, val] => dictEntries rest (odInsert (pstrip name) (pstrip val) acc)
    | _ => Except.error PyErr.valueError

/-- `MOGDevice.ask_dict` (lines 113-127) as a function of the received
data: `ask`, strip a leading `b"OK"`, require a colon, split on `b","`
if present else on `b"\n"`, and parse the entries. -/
def ask_dict (raw : LC) : Except PyErr (List (LC × LC)) :=
  (ask raw).bind fun resp0 =>
    let resp := stripOKHd resp0
    if resp.contains ':' then
      dictEntries (splitCh (if resp.contains ',' then ',' else '\n') resp) []
    else Except.error PyErr.notADictionary

/-- The entry loop of `versions` (lines 82-89).  Entries starting with
`b"OK"` are skipped; `l.split(b":", 2)` must unpack into exactly a name
and a value (else `ValueError`); a value still containing a space hits
`v.rsplit(" ", 2)` whose separator is the str `" "`, not bytes, which
raises `TypeError` in Python 3. -/
def versionsEntries : List LC → List (LC × LC) → Except PyErr (List (LC × LC))
  | [], acc => Except.ok acc
  | l :: rest, acc =>
    if startsWithB (bs "OK") l then versionsEntries rest acc
    else
      match splitChN ':' 2 l with
      | [n, v0] =>
        let v := pstrip v0
        if v.contains ' ' then Except.error PyErr.typeError
        else versionsEntries rest (odInsert (pstrip n) v acc)
      | _ => Except.error PyErr.valueError

/-- The parsing step of `versions` (lines 75-93), after `ask`.  On
`b"Command not defined"` raise incompatible firmware.  If the response
has a colon, line 81 picks the separator: `b","` when a comma is
present, otherwise the str `"\n"` — and `bytes.split` of a str
separator raises `TypeError` in Python 3, so the whole newline branch
fails.  Without a colon, the stripped response is stored under
`b"UC"`. -/
def versionsParse (verstr : LC) : Except PyErr (List (LC × LC)) :=
  if verstr = bs "Command not defined" then
    Except.error PyErr.incompatibleFirmware
  else if verstr.contains ':' then
    if verstr.contains ',' then versionsEntries (splitCh ',' verstr) []
    else Except.error PyErr.typeError
  else Except.ok [(bs "UC", pstrip verstr)]

/-- `MOGDevice.versions` (lines 73-93) as a function of the received
data for the `b"version"` query. -/
def versions (raw : LC) : Except PyErr (List (LC × LC)) :=
  (ask raw).bind versionsParse

/-- Transport state for polling: the queue of pending data chunks.
`has_data` (lines 150-165) reports whether anything is waiting. -/
def hasDataB (s : List LC) : Bool := !s.isEmpty

/-- `recv` as invoked inside the `flush` loop: with data pending it
returns the pending bytes and drains the queue (the multi-packet drain
of lines 175-202, chunk timing abstracted away). -/
def recvConsume (s : List LC) : LC × List LC := (s.flatten, [])

/-- `MOGDevice.flush` (lines 167-173): `while has_data(timeout): dat +=
recv(buffer)`.  When no data is pending the loop body never runs and
the empty buffer is returned with the queue untouched; otherwise one
`recvConsume` empties the queue and the loop exits. -/
def flush (s : List LC) : LC × List LC :=
  if hasDataB s then recvConsume s else ([], s)

/-- The `while size > 0` loop of `recv_raw` (lines 213-229).  The
channel is a flat list of pending bytes plus an oracle of chunk sizes:
step `k` makes `dev.recv(size)` return `min size k` pending bytes (a
`0` entry models a read that returns nothing, i.e. closure); once the
oracle is exhausted each read returns everything asked for that is
pending.  A zero-length chunk breaks the loop.  Returns the received
buffer, the remaining pending bytes and the remaining oracle. -/
def recvRawGo : List Nat → Nat → LC → LC × LC × List Nat
  | oracle, 0, pending => ([], pending, oracle)
  | [], Nat.succ size, pending =>
    if pending.isEmpty then ([], pending, [])
    else (pending.take (Nat.succ size), pending.drop (Nat.succ size), [])
  | k :: os, Nat.succ size, pending =>
    let chunk := pending.take (min (Nat.succ size) k)
    if chunk.isEmpty then ([], pending, os)
    else
      let r := recvRawGo os (Nat.succ size - chunk.length) (pending.drop chunk.length)
      (chunk ++ r.1, r.2)

/-- `MOGDevice.recv_raw` (lines 213-229): receive exactly `size` bytes,
best effort. -/
def recv_raw (size : Nat) (pending : LC) (oracle : List Nat) : LC × LC × List Nat :=
  recvRawGo oracle size pending

/-- Little-endian unsigned 32-bit value of the first four bytes. -/
def le32v : LC → Nat
  | a :: b :: c :: d :: _ =>
    a.toNat + 256 * b.toNat + 65536 * c.toNat + 16777216 * d.toNat
  | _ => 0

/-- `unpack("<L", head)`: little-endian unsigned 32-bit decode of a
4-byte header; anything but 4 bytes raises `struct.error`. -/
def le32 (s : LC) : Option Nat :=
  if s.length = 4 then some (le32v s) else none

/-- `MOGDevice.ask_bin` (lines 129-140) as a function of the channel
state: read a 4-byte header via `recv_raw`; the literal `b"ERR:"` makes
the following text response (the remaining pending bytes, stripped) the
error; otherwise the header is the little-endian payload length, the
payload is read via `recv_raw`, and a short payload raises the
incorrect-length error. -/
def ask_bin (pending : LC) (oracle : List Nat) : Except PyErr LC :=
  let r := recv_raw 4 pending oracle
  if r.1 = bs "ERR:" then Except.error (PyErr.runtimeError (pstrip r.2.1))
  else if r.1.length = 4 then
    let datalen := le32v r.1
    let d := recv_raw datalen r.2.1 r.2.2
    if d.1.length = datalen then Except.ok d.1
    else Except.error PyErr.incorrectLength
  else Except.error PyErr.structError


theorem startsWithB_iff (p s : LC) : startsWithB p s = true ↔ p <+: s := by
  induction p generalizing s with
  | nil => simp [startsWithB, List.nil_prefix]
  | cons a ps ih =>
    cases s with
    | nil => simp [startsWithB, List.prefix_nil]
    | cons b t => simp [startsWithB, List.cons_prefix_cons, ih]

theorem startsWithB_eq_false_iff (p s : LC) : startsWithB p s = false ↔ ¬ p <+: s := by
  rw [← startsWithB_iff]
  cases startsWithB p s <;> simp

theorem endsWithB_iff (p s : LC) : endsWithB p s = true ↔ p <:+ s := by
  rw [endsWithB, startsWithB_iff]
  exact List.reverse_prefix

theorem endsWithB_eq_false_iff (p s : LC) : endsWithB p s = false ↔ ¬ p <:+ s := by
  rw [← endsWithB_iff]
  cases endsWithB p s <;> simp

theorem prefix_head_ne {a b : Char} {p q s : LC} (hab : a ≠ b)
    (h : (a :: p) <+: s) : ¬ (b :: q) <+: s := by
  obtain ⟨t, ht⟩ := h
  intro h2
  obtain ⟨u, hu⟩ := h2
  rw [← ht] at hu
  simp only [List.cons_append] at hu
  exact hab (by injection hu with h1 _; exact h1.symm)

theorem err_prefix_facts (s : LC) (h : startsWithB (bs "ERR:") s = true) :
    ':' ∈ s ∧ startsWithB (bs "OK") s = false := by
  obtain ⟨t, ht⟩ := (startsWithB_iff _ _).1 h
  rw [show bs "ERR:" = ['E', 'R', 'R', ':'] from rfl] at ht
  subst ht
  refine ⟨by simp, ?_⟩
  rw [startsWithB_eq_false_iff, show bs "OK" = ['O', 'K'] from rfl]
  exact prefix_head_ne (show 'E' ≠ 'O' by decide) ⟨t, rfl⟩

theorem containsB_iff (s : LC) (c : Char) : s.contains c = true ↔ c ∈ s := by
  simp [List.contains]

theorem containsB_eq_false_iff (s : LC) (c : Char) : s.contains c = false ↔ c ∉ s := by
  simp [List.contains]

theorem le32_eq_some {s : LC} {N : Nat} (h : le32 s = some N) :
    s.length = 4 ∧ le32v s = N := by
  rw [le32] at h
  split at h
  · refine ⟨by assumption, ?_⟩
    injection h
  · exact absurd h (by simp)

/-- C3: for every device response whose trimmed form begins with the
literal prefix ERR:, `ask` fails with the remainder after the prefix,
trimmed of surrounding whitespace, as the error payload; for every
trimmed response not beginning with ERR:, `ask` returns the trimmed
response. -/
theorem claim_C3 (raw : LC) :
    ((bs "ERR:") <+: pstrip raw →
      ask raw = Except.error (PyErr.runtimeError (pstrip ((pstrip raw).drop 4)))) ∧
    (¬ (bs "ERR:") <+: pstrip raw → ask raw = Except.ok (pstrip raw)) := by
  constructor
  · intro h
    have hb : startsWithB (bs "ERR:") (pstrip raw) = true := (startsWithB_iff _ _).2 h
    simp [ask, hb]
  · intro h
    have hb : startsWithB (bs "ERR:") (pstrip raw) = false :=
      (startsWithB_eq_false_iff _ _).2 h
    simp [ask, hb]

/-- Witness for C3 at the concrete responses ERR: foo (with surrounding
whitespace) and version 1. -/
theorem claim_C3_witness :
    ask (bs " ERR: foo ") = Except.error (PyErr.runtimeError (bs "foo")) ∧
    ask (bs "version 1") = Except.ok (bs "version 1") :=
  ⟨((claim_C3 (bs " ERR: foo ")).1 (by decide)).trans (by decide),
   ((claim_C3 (bs "version 1")).2 (by decide)).trans (by decide)⟩

/-- C2: `ask_dict` parses the comma form OK name1:1,name2:2 into the
ordered pairs name1 to 1 and name2 to 2, parses the comma-free newline
form a:1 LF b:2 likewise, and fails with the not-a-dictionary error on
every response with no colon left after the leading-OK strip. -/
theorem claim_C2 :
    ask_dict (bs "OK name1:1,name2:2") =
      Except.ok [(bs "name1", bs "1"), (bs "name2", bs "2")] ∧
    ask_dict (bs "a:1\nb:2") = Except.ok [(bs "a", bs "1"), (bs "b", bs "2")] ∧
    ∀ raw : LC, ':' ∉ stripOKHd (pstrip raw) →
      ask_dict raw = Except.error PyErr.notADictionary := by
  refine ⟨by decide, by decide, ?_⟩
  intro raw h
  have hERR : startsWithB (bs "ERR:") (pstrip raw) = false := by
    cases hb : startsWithB (bs "ERR:") (pstrip raw) with
    | false => rfl
    | true =>
      obtain ⟨hmem, hOK⟩ := err_prefix_facts _ hb
      simp only [stripOKHd, hOK] at h
      simp at h
      exact absurd hmem h
  have hc : (stripOKHd (pstrip raw)).contains ':' = false :=
    (containsB_eq_false_iff _ _).2 h
  have hask : ask raw = Except.ok (pstrip raw) := by simp [ask, hERR]
  simp [ask_dict, hask, hc, Except.bind]
  intro hmem
  exact absurd hmem h

/-- Witness for C2 at a concrete colon-free response. -/
theorem claim_C2_witness :
    ask_dict (bs "status good") = Except.error PyErr.notADictionary :=
  claim_C2.2.2 (bs "status good") (by decide)

/-- C1: the spec and the source comment at line 80 intend the
comma-free newline-separated old-firmware version response to be parsed
into a component map, but line 81 selects the separator as the str LF
rather than the bytes LF, so `bytes.split` raises `TypeError` in
Python 3 and `versions` fails on every such response. -/
theorem claim_C1 :
    versions (bs "UC:1.2\nDRV:3.4") = Except.error PyErr.typeError := by decide

/-- C5: `versions` parses OK,UC:1.2,DRV:3.4 into UC to 1.2 and DRV to
3.4, fails with the incompatible-firmware error on Command not defined,
and maps a bare colon-free response 1.2.3 to the single entry UC to
1.2.3. -/
theorem claim_C5 :
    versions (bs "OK,UC:1.2,DRV:3.4") =
      Except.ok [(bs "UC", bs "1.2"), (bs "DRV", bs "3.4")] ∧
    versions (bs "Command not defined") = Except.error PyErr.incompatibleFirmware ∧
    versions (bs "1.2.3") = Except.ok [(bs "UC", bs "1.2.3")] := by decide

/-- Counterexample for C6: on the response ERR:foo, which does not
begin with OK, `cmd` fails with payload foo, not with the raw response
ERR:foo as the claim states. -/
theorem claim_C6_counterexample :
    cmd (bs "ERR:foo") = Except.error (PyErr.runtimeError (bs "foo")) ∧
    bs "foo" ≠ bs "ERR:foo" := by decide

/-- C6 (amended): `cmd` succeeds exactly when the trimmed response
begins with OK, returning that trimmed response; on any other response
it fails, carrying the trimmed response as payload when the response
does not begin with ERR:, and carrying the device error text (the
remainder after ERR:, trimmed) when it does. -/
theorem claim_C6_amended (raw : LC) :
    ((bs "OK") <+: pstrip raw → cmd raw = Except.ok (pstrip raw)) ∧
    (¬ (bs "OK") <+: pstrip raw → (bs "ERR:") <+: pstrip raw →
      cmd raw = Except.error (PyErr.runtimeError (pstrip ((pstrip raw).drop 4)))) ∧
    (¬ (bs "OK") <+: pstrip raw → ¬ (bs "ERR:") <+: pstrip raw →
      cmd raw = Except.error (PyErr.runtimeError (pstrip raw))) := by
  refine ⟨?_, ?_, ?_⟩
  · intro hOK
    have hbO : startsWithB (bs "OK") (pstrip raw) = true := (startsWithB_iff _ _).2 hOK
    have hbE : startsWithB (bs "ERR:") (pstrip raw) = false := by
      rw [startsWithB_eq_false_iff, show bs "ERR:" = 'E' :: bs "RR:" from rfl]
      have h1 : ('O' :: bs "K") <+: pstrip raw := by
        rw [show ('O' :: bs "K") = bs "OK" from rfl]
        exact hOK
      exact prefix_head_ne (show 'O' ≠ 'E' by decide) h1
    simp [cmd, ask, hbE, hbO, Except.bind]
  · intro _ hERR
    have hbE : startsWithB (bs "ERR:") (pstrip raw) = true := (startsWithB_iff _ _).2 hERR
    simp [cmd, ask, hbE, Except.bind]
  · intro hOK hERR
    have hbO : startsWithB (bs "OK") (pstrip raw) = false :=
      (startsWithB_eq_false_iff _ _).2 hOK
    have hbE : startsWithB (bs "ERR:") (pstrip raw) = false :=
      (startsWithB_eq_false_iff _ _).2 hERR
    simp [cmd, ask, hbE, hbO, Except.bind]

/-- Witness for the amended C6 at the concrete responses OK, ERR:foo
and FAIL. -/
theorem claim_C6_amended_witness :
    cmd (bs "OK") = Except.ok (bs "OK") ∧
    cmd (bs "ERR:foo") = Except.error (PyErr.runtimeError (bs "foo")) ∧
    cmd (bs "FAIL") = Except.error (PyErr.runtimeError (bs "FAIL")) :=
  ⟨((claim_C6_amended (bs "OK")).1 (by decide)).trans (by decide),
   ((claim_C6_amended (bs "ERR:foo")).2.1 (by decide) (by decide)).trans (by decide),
   ((claim_C6_amended (bs "FAIL")).2.2 (by decide) (by decide)).trans (by decide)⟩

/-- C7: `send` appends CRLF to every command not already ending in CRLF
and transmits a command already ending in CRLF unmodified. -/
theorem claim_C7 (c : LC) :
    (¬ CRLFb <:+ c → send c = c ++ CRLFb) ∧ (CRLFb <:+ c → send c = c) := by
  constructor
  · intro h
    have hb : endsWithB CRLFb c = false := (endsWithB_eq_false_iff _ _).2 h
    simp [send, hb]
  · intro h
    have hb : endsWithB CRLFb c = true := (endsWithB_iff _ _).2 h
    simp [send, hb]

/-- Witness for C7 at the concrete commands info and info CRLF. -/
theorem claim_C7_witness :
    send (bs "info") = bs "info\r\n" ∧ send (bs "info\r\n") = bs "info\r\n" :=
  ⟨((claim_C7 (bs "info")).1 (by decide)).trans (by decide),
   (claim_C7 (bs "info\r\n")).2 (by decide)⟩

/-- C8: an address beginning with COM or equal to USB selects the
serial transport; any other address with no colon and no port argument
selects the network transport with target host:7802. -/
theorem claim_C8 (addr : LC) (port : Option Int) :
    ((bs "COM" <+: addr ∨ addr = bs "USB") → (resolveTarget addr port).isSerial = true) ∧
    (¬ bs "COM" <+: addr → addr ≠ bs "USB" → ':' ∉ addr →
      resolveTarget addr none = Target.network (addr ++ bs ":7802")) := by
  constructor
  · intro h
    have hc : (startsWithB (bs "COM") addr || decide (addr = bs "USB")) = true := by
      rcases h with h | h
      · rw [(startsWithB_iff _ _).2 h, Bool.true_or]
      · rw [decide_eq_true h, Bool.or_true]
    cases port <;> simp [resolveTarget, hc, Target.isSerial]
  · intro h1 h2 h3
    have hc : (startsWithB (bs "COM") addr || decide (addr = bs "USB")) = false := by
      rw [(startsWithB_eq_false_iff _ _).2 h1, decide_eq_false h2, Bool.or_self]
    simp [resolveTarget, hc]
    rw [if_neg h3]
    have hp : bs ":" ++ (toString (7802 : Int)).data = bs ":7802" := by decide
    rw [hp]

/-- Witness for C8 at the concrete addresses COM3, USB (with a port
argument) and 10.1.1.2. -/
theorem claim_C8_witness :
    (resolveTarget (bs "COM3") none).isSerial = true ∧
    (resolveTarget (bs "USB") (some 4)).isSerial = true ∧
    resolveTarget (bs "10.1.1.2") none = Target.network (bs "10.1.1.2:7802") :=
  ⟨(claim_C8 (bs "COM3") none).1 (Or.inl (by decide)),
   (claim_C8 (bs "USB") (some 4)).1 (Or.inr (by decide)),
   ((claim_C8 (bs "10.1.1.2") none).2 (by decide) (by decide) (by decide)).trans
     (by decide)⟩

/-- C9: when no data is pending, the `while has_data` loop of `flush`
never runs its body, so `flush` returns the empty buffer and leaves the
transport state unchanged; a subsequent receive therefore sees exactly
the state it would have seen without the `flush` call. -/
theorem claim_C9 (s : List LC) (h : hasDataB s = false) : flush s = ([], s) := by
  simp [flush, h]

/-- Witness for C9 at the empty pending queue. -/
theorem claim_C9_witness : flush [] = ([], []) := claim_C9 [] rfl

theorem recvRawGo_length : ∀ (oracle : List Nat) (size : Nat) (pending : LC),
    ((recvRawGo oracle size pending).1).length ≤ size := by
  intro oracle
  induction oracle with
  | nil =>
    intro size pending
    cases size with
    | zero => simp [recvRawGo]
    | succ n =>
      simp only [recvRawGo]
      split
      · simp
      · simp [List.length_take]
  | cons k os ih =>
    intro size pending
    cases size with
    | zero => simp [recvRawGo]
    | succ n =>
      simp only [recvRawGo]
      split
      · simp
      · have h2 := ih (n + 1 - (pending.take (min (n + 1) k)).length)
          (pending.drop ((pending.take (min (n + 1) k)).length))
        simp only [Nat.succ_eq_add_one, List.length_append, List.length_take] at h2 ⊢
        omega

/-- C10: for every requested size, the `recv_raw` loop returns at most
that many bytes whatever chunk sizes the channel delivers, and for size
0 it returns the empty buffer without touching the channel. -/
theorem claim_C10 (size : Nat) (pending : LC) (oracle : List Nat) :
    (recv_raw size pending oracle).1.length ≤ size ∧
    recv_raw 0 pending oracle = ([], pending, oracle) := by
  refine ⟨recvRawGo_length oracle size pending, ?_⟩
  cases oracle <;> rfl

/-- C4: `ask_bin` reads a 4-byte header; the literal ERR: makes the
following text response the error; otherwise the header decodes as a
little-endian unsigned 32-bit length N and the payload read via
`recv_raw` is returned when exactly N bytes were obtained, while fewer
than N bytes yield the incorrect-length error. -/
theorem claim_C4 (pending : LC) (oracle : List Nat) (r : LC × LC × List Nat)
    (hr : recv_raw 4 pending oracle = r) :
    (r.1 = bs "ERR:" →
      ask_bin pending oracle = Except.error (PyErr.runtimeError (pstrip r.2.1))) ∧
    (∀ N d, r.1 ≠ bs "ERR:" → le32 r.1 = some N → recv_raw N r.2.1 r.2.2 = d →
      ((d.1.length = N → ask_bin pending oracle = Except.ok d.1) ∧
       (d.1.length < N → ask_bin pending oracle = Except.error PyErr.incorrectLength))) := by
  constructor
  · intro h1
    simp only [ask_bin]
    rw [hr, if_pos h1]
  · intro N d hne hN hd
    obtain ⟨hlen4, hval⟩ := le32_eq_some hN
    simp only [ask_bin]
    rw [hr, if_neg hne, if_pos hlen4, hval, hd]
    constructor
    · intro hl
      rw [if_pos hl]
    · intro hl
      rw [if_neg (Nat.ne_of_lt hl)]

/-- Witness for C4 at a 5-byte header with a full payload, with a short
payload, and at an ERR: header. -/
theorem claim_C4_witness :
    ask_bin ('\x05' :: '\x00' :: '\x00' :: '\x00' :: bs "hello") [] =
      Except.ok (bs "hello") ∧
    ask_bin ('\x05' :: '\x00' :: '\x00' :: '\x00' :: bs "abc") [] =
      Except.error PyErr.incorrectLength ∧
    ask_bin (bs "ERR:bad\r\n") [] = Except.error (PyErr.runtimeError (bs "bad")) := by
  refine ⟨?_, ?_, ?_⟩
  · have h := (claim_C4 ('\x05' :: '\x00' :: '\x00' :: '\x00' :: bs "hello") []
      (['\x05', '\x00', '\x00', '\x00'], bs "hello", []) (by decide)).2
      5 (bs "hello", [], []) (by decide) (by decide) (by decide)
    exact h.1 (by decide)
  · have h := (claim_C4 ('\x05' :: '\x00' :: '\x00' :: '\x00' :: bs "abc") []
      (['\x05', '\x00', '\x00', '\x00'], bs "abc", []) (by decide)).2
      5 (bs "abc", [], []) (by decide) (by decide) (by decide)
    exact h.2 (by decide)
  · have h := (claim_C4 (bs "ERR:bad\r\n") []
      (bs "ERR:", bs "bad\r\n", []) (by decide)).1 (by decide)
    exact h.trans (by decide)

end MOG
